import Mathlib

/-! The literal-valued definitions of the gogensig test header `macro.h`.

`cmd/gogensig/convert/_testdata/macro/hfile/macro.h` is a header of 21 lines.
The development below embeds the header verbatim as its list of lines, reads
every line with a small line reader for the C preprocessor syntax the header
uses, and proves facts about the names the header defines and their values.
-/

namespace MacroH

/-! ## The header, line by line -/

/-- The 21 lines of `macro.h`, verbatim and in order (the last line has no
terminating newline in the file). -/
def header : List String :=
  [ "#define MACRO_VALUE 123",
    "#define MACRO_STRING \"hello\"",
    "#define MACRO_FLOAT 1.23",
    "#define LUA_32BITS 0",
    "",
    "#define XML_SAX2_MAGIC 0xDEEDBEAF",
    "",
    "#define ZSTD_MAGICNUMBER 0xFD2FB528",
    "#define ZSTD_MAGIC_DICTIONARY 0xEC30A437",
    "#define ZSTD_MAGIC_SKIPPABLE_START 0x184D2A50",
    "#define ZSTD_MAGIC_SKIPPABLE_MASK 0xFFFFFFF0",
    "",
    "#define INT32_MIN_HEX 0x80000000",
    "",
    "#define INT32_MAX_HEX 0x7FFFFFFF",
    "#define INT32_MAX_DEC 2147483647",
    "",
    "#define UINT32_MAX 0xFFFFFFFF",
    "// todo(zzy): UINT64_MAX 0xFFFFFFFFFFFFFFFF will cause overflow int",
    "// #define UINT64_MAX 0xFFFFFFFFFFFFFFFF",
    "#define INT64_MAX 9223372036854775807" ]

/-! ## Characters -/

/-- Horizontal white space inside a line. -/
def isBlankChar (c : Char) : Bool :=
  c = ' ' || c = '\t'

/-- A decimal digit with its value. -/
def decDigit (c : Char) : Option Nat :=
  if '0' ≤ c ∧ c ≤ '9' then some (c.toNat - '0'.toNat) else none

/-- A hexadecimal digit with its value. -/
def hexDigit (c : Char) : Option Nat :=
  if '0' ≤ c ∧ c ≤ '9' then some (c.toNat - '0'.toNat)
  else if 'a' ≤ c ∧ c ≤ 'f' then some (c.toNat - 'a'.toNat + 10)
  else if 'A' ≤ c ∧ c ≤ 'F' then some (c.toNat - 'A'.toNat + 10)
  else none

/-- A character that may start an identifier. -/
def isIdentStart (c : Char) : Bool :=
  c = '_' || ('a' ≤ c && c ≤ 'z') || ('A' ≤ c && c ≤ 'Z')

/-- A character that may continue an identifier. -/
def isIdentChar (c : Char) : Bool :=
  isIdentStart c || ('0' ≤ c && c ≤ '9')

/-! ## Literals -/

/-- The four shapes of literal a definition of the header is bound to.
An integer literal carries its value; a floating-point literal written
`ddd.ddd` carries the exact decimal it denotes, as `mantissa / 10 ^ scale`;
a string literal carries the characters between its quotes. -/
inductive Literal where
  | decInt (value : Nat)
  | hexInt (value : Nat)
  | float (mantissa scale : Nat)
  | str (text : String)
  deriving DecidableEq, Repr

/-- The value of a run of digits in the given base, most significant first;
`none` as soon as a character is not a digit of that base. -/
def digitsValue (digit : Char → Option Nat) (base : Nat) :
    Nat → List Char → Option Nat
  | acc, [] => some acc
  | acc, c :: cs =>
    match digit c with
    | some d => digitsValue digit base (acc * base + d) cs
    | none => none

/-- The value of a non-empty run of digits. -/
def numeral (digit : Char → Option Nat) (base : Nat) (cs : List Char) : Option Nat :=
  if cs.isEmpty then none else digitsValue digit base 0 cs

/-- A decimal integer literal: a non-empty run of decimal digits that is the
single digit `0` or does not start with `0` (a longer run starting with `0`
is an octal literal in C and is not accepted). No suffix is accepted. -/
def readDecInt (cs : List Char) : Option Literal :=
  match cs with
  | '0' :: _ :: _ => none
  | _ => (numeral decDigit 10 cs).map Literal.decInt

/-- A hexadecimal integer literal: `0x` or `0X` and a non-empty run of
hexadecimal digits. No suffix is accepted. -/
def readHexInt (cs : List Char) : Option Literal :=
  match cs with
  | '0' :: 'x' :: ds => (numeral hexDigit 16 ds).map Literal.hexInt
  | '0' :: 'X' :: ds => (numeral hexDigit 16 ds).map Literal.hexInt
  | _ => none

/-- A floating-point literal of the form `ddd.ddd`: non-empty runs of decimal
digits on both sides of one point, no exponent and no suffix. -/
def readFloat (cs : List Char) : Option Literal :=
  match cs.span (fun c => c != '.') with
  | (ip, '.' :: fp) =>
    if ip.isEmpty || fp.isEmpty then none
    else (digitsValue decDigit 10 0 (ip ++ fp)).map (fun m => Literal.float m fp.length)
  | _ => none

/-- A string literal: a double quote, characters none of which is a double
quote or a backslash, and a closing double quote. -/
def readStr (cs : List Char) : Option Literal :=
  match cs with
  | '"' :: rest =>
    if rest.getLast? = some '"' ∧ rest.dropLast.all (fun c => c != '"' && c != '\\')
    then some (Literal.str (String.mk rest.dropLast)) else none
  | _ => none

/-- Read a whole replacement text as exactly one literal. -/
def readLiteral (cs : List Char) : Option Literal :=
  (readStr cs).orElse fun _ =>
  (readHexInt cs).orElse fun _ =>
  (readDecInt cs).orElse fun _ =>
  readFloat cs

/-- The integer a literal denotes, when it is an integer literal. -/
def Literal.intValue : Literal → Option Nat
  | .decInt v => some v
  | .hexInt v => some v
  | _ => none

/-- The exact rational a numeric literal denotes. -/
def Literal.numValue : Literal → Option ℚ
  | .decInt v => some v
  | .hexInt v => some v
  | .float m s => some ((m : ℚ) / 10 ^ s)
  | .str _ => none

def Literal.isInt (v : Literal) : Bool := v.intValue.isSome

def Literal.isFloat : Literal → Bool
  | .float _ _ => true
  | _ => false

def Literal.isStr : Literal → Bool
  | .str _ => true
  | _ => false

/-! ## Lines -/

/-- What a line of a header is. -/
inductive Line where
  /-- Nothing but white space. -/
  | blank
  /-- A `//` comment, with the text after the two slashes. -/
  | comment (text : String)
  /-- An object-like `#define NAME literal`. -/
  | define (name : String) (value : Literal)
  /-- Anything else: another directive, a function-like definition, a
  definition whose replacement text is not one literal, a declaration. -/
  | other
  deriving DecidableEq, Repr

def dropBlanks (cs : List Char) : List Char :=
  cs.dropWhile isBlankChar

def trimRight (cs : List Char) : List Char :=
  (cs.reverse.dropWhile isBlankChar).reverse

/-- Split off the longest leading identifier; `none` when the text does not
start with one. -/
def splitIdent (cs : List Char) : Option (List Char × List Char) :=
  match cs with
  | c :: _ => if isIdentStart c then some (cs.span isIdentChar) else none
  | [] => none

/-- Read what follows `#define`: white space, a name, white space, and a
replacement text that is one literal. A name followed directly by `(` is a
function-like definition and is not accepted. -/
def readDefine (after : List Char) : Line :=
  match after with
  | [] => .other
  | c :: _ =>
    if isBlankChar c then
      match splitIdent (dropBlanks after) with
      | some (name, tail) =>
        match tail with
        | [] => .other
        | t :: _ =>
          if isBlankChar t then
            match readLiteral (trimRight (dropBlanks tail)) with
            | some v => .define (String.mk name) v
            | none => .other
          else .other
      | none => .other
    else .other

/-- Read one line. -/
def readLine (l : String) : Line :=
  match dropBlanks l.toList with
  | [] => .blank
  | '/' :: '/' :: text => .comment (String.mk text)
  | '#' :: rest =>
    match splitIdent (dropBlanks rest) with
    | some (directive, after) =>
      if directive = "define".toList then readDefine after else .other
    | none => .other
  | _ => .other

/-- A line is plain when it is blank, a comment or a literal definition. -/
def Line.isPlain : Line → Bool
  | .other => false
  | _ => true

/-! ## The definitions of the header -/

/-- The name and value a line defines, if it is a definition. -/
def Line.binding : Line → Option (String × Literal)
  | .define n v => some (n, v)
  | _ => none

/-- The names the header defines with their values, in file order. -/
def definitions : List (String × Literal) :=
  header.filterMap fun l => (readLine l).binding

/-- The value the header binds a name to. -/
def lookupDef (name : String) : Option Literal :=
  definitions.lookup name

/-- The integer the header binds a name to. -/
def intValueOf (name : String) : Option Nat :=
  (lookupDef name).bind Literal.intValue

/-- The names the header defines, in file order. -/
def definedNames : List String :=
  definitions.map Prod.fst

/-! ## Comments of the header -/

/-- Split a text into its words at white space; `cur` holds the characters
of the word being read, last one first. -/
def wordsAux : List Char → List Char → List String
  | cur, [] => if cur.isEmpty then [] else [String.mk cur.reverse]
  | cur, c :: cs =>
    if isBlankChar c then
      if cur.isEmpty then wordsAux [] cs else String.mk cur.reverse :: wordsAux [] cs
    else wordsAux (c :: cur) cs

/-- The words of a text. -/
def words (t : String) : List String :=
  wordsAux [] t.toList

/-- The word that follows the first occurrence of a word. -/
def wordAfter (w : String) : List String → Option String
  | a :: b :: rest => if a = w then some b else wordAfter w (b :: rest)
  | _ => none

/-- The literal that a comment of the header writes right after a name. -/
def commentedValue (name : String) : Option Literal :=
  header.findSome? fun l =>
    match readLine l with
    | .comment t => (wordAfter name (words t)).bind fun w => readLiteral w.toList
    | _ => none

/-- The definitions of the header that are commented out: the `//` comments
whose text is itself a definition. -/
def commentedOut : List (String × Literal) :=
  header.filterMap fun l =>
    match readLine l with
    | .comment t => (readLine t).binding
    | _ => none

/-! ## Integer ranges -/

/-- The range of a signed 32-bit integer. -/
def inInt32 (v : Int) : Prop :=
  -2147483648 ≤ v ∧ v ≤ 2147483647

/-- The range of an unsigned 32-bit integer. -/
def inUInt32 (v : Int) : Prop :=
  0 ≤ v ∧ v ≤ 4294967295

/-- The range of a signed 64-bit integer. -/
def inInt64 (v : Int) : Prop :=
  -9223372036854775808 ≤ v ∧ v ≤ 9223372036854775807

instance (v : Int) : Decidable (inInt32 v) := by
  unfold inInt32; infer_instance

instance (v : Int) : Decidable (inUInt32 v) := by
  unfold inUInt32; infer_instance

instance (v : Int) : Decidable (inInt64 v) := by
  unfold inInt64; infer_instance

/-- Reduce an integer modulo `2 ^ 32` and read the result as a signed 32-bit
integer in two's complement. -/
def wrapInt32 (v : Int) : Int :=
  let r := v % 4294967296
  if r < 2147483648 then r else r - 4294967296

/-! ## The reader on a few lines that are not literal definitions -/

theorem readLine_function_like : readLine "#define SQUARE(x) ((x) * (x))" = .other := by
  decide

theorem readLine_expression_body : readLine "#define TOTAL (1 + 2)" = .other := by
  decide

theorem readLine_octal_body : readLine "#define MODE 0644" = .other := by
  decide

theorem readLine_empty_body : readLine "#define GUARD_H" = .other := by
  decide

theorem readLine_other_directive : readLine "#include <stdint.h>" = .other := by
  decide

theorem readLine_declaration : readLine "int lua_32bits;" = .other := by
  decide

theorem readLine_spaced_define :
    readLine "  #  define  MASK   0x1F  " = .define "MASK" (.hexInt 31) := by
  decide

/-! ## What the header contains -/

/-- The header read line by line. -/
theorem header_read :
    header.map readLine =
      [ .define "MACRO_VALUE" (.decInt 123),
        .define "MACRO_STRING" (.str "hello"),
        .define "MACRO_FLOAT" (.float 123 2),
        .define "LUA_32BITS" (.decInt 0),
        .blank,
        .define "XML_SAX2_MAGIC" (.hexInt 3740122799),
        .blank,
        .define "ZSTD_MAGICNUMBER" (.hexInt 4247762216),
        .define "ZSTD_MAGIC_DICTIONARY" (.hexInt 3962610743),
        .define "ZSTD_MAGIC_SKIPPABLE_START" (.hexInt 407710288),
        .define "ZSTD_MAGIC_SKIPPABLE_MASK" (.hexInt 4294967280),
        .blank,
        .define "INT32_MIN_HEX" (.hexInt 2147483648),
        .blank,
        .define "INT32_MAX_HEX" (.hexInt 2147483647),
        .define "INT32_MAX_DEC" (.decInt 2147483647),
        .blank,
        .define "UINT32_MAX" (.hexInt 4294967295),
        .comment " todo(zzy): UINT64_MAX 0xFFFFFFFFFFFFFFFF will cause overflow int",
        .comment " #define UINT64_MAX 0xFFFFFFFFFFFFFFFF",
        .define "INT64_MAX" (.decInt 9223372036854775807) ] := by
  decide

/-- The fourteen definitions of the header. -/
theorem definitions_eq :
    definitions =
      [ ("MACRO_VALUE", .decInt 123),
        ("MACRO_STRING", .str "hello"),
        ("MACRO_FLOAT", .float 123 2),
        ("LUA_32BITS", .decInt 0),
        ("XML_SAX2_MAGIC", .hexInt 3740122799),
        ("ZSTD_MAGICNUMBER", .hexInt 4247762216),
        ("ZSTD_MAGIC_DICTIONARY", .hexInt 3962610743),
        ("ZSTD_MAGIC_SKIPPABLE_START", .hexInt 407710288),
        ("ZSTD_MAGIC_SKIPPABLE_MASK", .hexInt 4294967280),
        ("INT32_MIN_HEX", .hexInt 2147483648),
        ("INT32_MAX_HEX", .hexInt 2147483647),
        ("INT32_MAX_DEC", .decInt 2147483647),
        ("UINT32_MAX", .hexInt 4294967295),
        ("INT64_MAX", .decInt 9223372036854775807) ] := by
  decide

/-- No name is defined twice, so looking a name up and finding it among the
definitions are the same thing. -/
theorem definedNames_nodup : definedNames.Nodup := by
  decide

theorem header_all_plain : ∀ l ∈ header, (readLine l).isPlain = true := by
  decide

/-! ## The claims -/

/-- C1: every line of the header that is neither blank nor a `//` comment is
an object-like `#define NAME literal` whose literal is a decimal integer, a
hexadecimal integer, a floating-point or a string literal. -/
theorem header_lines_are_literal_definitions (l : String) (h : l ∈ header) :
    readLine l = .blank ∨ (∃ t, readLine l = .comment t) ∨
      ∃ name v, readLine l = .define name v ∧
        ((∃ n, v = .decInt n) ∨ (∃ n, v = .hexInt n) ∨
          (∃ m s, v = .float m s) ∨ ∃ t, v = .str t) := by
  have hp := header_all_plain l h
  cases hl : readLine l with
  | blank => exact Or.inl rfl
  | comment t => exact Or.inr (Or.inl ⟨t, rfl⟩)
  | define name v =>
    refine Or.inr (Or.inr ⟨name, v, rfl, ?_⟩)
    cases v with
    | decInt n => exact Or.inl ⟨n, rfl⟩
    | hexInt n => exact Or.inr (Or.inl ⟨n, rfl⟩)
    | float m s => exact Or.inr (Or.inr (Or.inl ⟨m, s, rfl⟩))
    | str t => exact Or.inr (Or.inr (Or.inr ⟨t, rfl⟩))
  | other => rw [hl] at hp; exact absurd hp (by decide)

/-- C1 at the line that defines `MACRO_STRING`. -/
theorem header_lines_are_literal_definitions_witness :
    "#define MACRO_STRING \"hello\"" ∈ header ∧
      (readLine "#define MACRO_STRING \"hello\"" = .blank ∨
        (∃ t, readLine "#define MACRO_STRING \"hello\"" = .comment t) ∨
        ∃ name v, readLine "#define MACRO_STRING \"hello\"" = .define name v ∧
          ((∃ n, v = .decInt n) ∨ (∃ n, v = .hexInt n) ∨
            (∃ m s, v = .float m s) ∨ ∃ t, v = .str t)) :=
  ⟨by decide, header_lines_are_literal_definitions _ (by decide)⟩

/-- C2: the header binds `MACRO_VALUE` to the integer 123 and
`ZSTD_MAGICNUMBER` to the hexadecimal literal `0xFD2FB528`, whose value is
4247762216. -/
theorem macro_value_and_zstd_magicnumber :
    lookupDef "MACRO_VALUE" = some (.decInt 123) ∧
      intValueOf "MACRO_VALUE" = some 123 ∧
      "#define ZSTD_MAGICNUMBER 0xFD2FB528" ∈ header ∧
      readLiteral "0xFD2FB528".toList = some (.hexInt 4247762216) ∧
      lookupDef "ZSTD_MAGICNUMBER" = some (.hexInt 4247762216) ∧
      intValueOf "ZSTD_MAGICNUMBER" = some 4247762216 := by
  decide

/-- C3 as stated fails: with `MACRO_STRING` the one string and `MACRO_FLOAT`
the one floating-point definition, the integer definitions are not thirteen. -/
theorem thirteen_integer_definitions_refuted :
    ¬ (definitions.filter (fun d => d.2.isStr) = [("MACRO_STRING", .str "hello")] ∧
        definitions.filter (fun d => d.2.isFloat) = [("MACRO_FLOAT", .float 123 2)] ∧
        (definitions.filter fun d => !d.2.isStr && !d.2.isFloat).length = 13) := by
  decide

/-- C3, amended: of the fourteen definitions of the header exactly one is a
string literal (`MACRO_STRING`, bound to "hello"), every other one is numeric,
exactly one of these is floating-point (`MACRO_FLOAT`, 1.23) and the remaining
twelve are integers. -/
theorem one_string_one_float_twelve_integers :
    definitions.length = 14 ∧
      definitions.filter (fun d => d.2.isStr) = [("MACRO_STRING", .str "hello")] ∧
      (definitions.all fun d => d.1 = "MACRO_STRING" || d.2.numValue.isSome) = true ∧
      definitions.filter (fun d => d.2.isFloat) = [("MACRO_FLOAT", .float 123 2)] ∧
      (lookupDef "MACRO_FLOAT").bind Literal.numValue = some (1.23 : ℚ) ∧
      (definitions.filter fun d => !d.2.isStr && !d.2.isFloat).length = 12 ∧
      ((definitions.filter fun d => !d.2.isStr && !d.2.isFloat).all
        fun d => d.2.isInt) = true := by
  refine ⟨by decide, by decide, ?_, by decide, ?_, by decide, by decide⟩
  · simp [definitions_eq, Literal.numValue]
  · have h : lookupDef "MACRO_FLOAT" = some (.float 123 2) := by decide
    rw [h]
    simp only [Option.some_bind, Literal.numValue]
    norm_num

/-- C4: the literal `0xFFFFFFFFFFFFFFFF` that the comment of the header puts
next to the name `UINT64_MAX` has the value `2 ^ 64 - 1`, which is outside the
signed 64-bit range and strictly greater than the value `2 ^ 63 - 1` of the
defined `INT64_MAX`; the definition of `UINT64_MAX` is commented out and the
header does not define the name. -/
theorem uint64_max_overflows_and_is_not_defined :
    ∃ u m : Nat,
      commentedValue "UINT64_MAX" = some (.hexInt u) ∧
      commentedOut = [("UINT64_MAX", .hexInt u)] ∧
      intValueOf "INT64_MAX" = some m ∧
      u = 2 ^ 64 - 1 ∧ m = 2 ^ 63 - 1 ∧ m < u ∧
      ¬ inInt64 u ∧ inInt64 m ∧
      lookupDef "UINT64_MAX" = none ∧ "UINT64_MAX" ∉ definedNames := by
  refine ⟨18446744073709551615, 9223372036854775807, ?_⟩
  decide

/-- C5: every integer the header defines lies in the signed 64-bit range
`[0, 2 ^ 63 - 1]`, and every one except `INT64_MAX` in the unsigned 32-bit
range `[0, 2 ^ 32 - 1]`; `UINT32_MAX` is exactly `2 ^ 32 - 1` and `INT64_MAX`
exactly `2 ^ 63 - 1`. -/
theorem integer_definitions_in_range :
    (∀ (name : String) (lit : Literal) (v : Nat),
        (name, lit) ∈ definitions → lit.intValue = some v →
          (0 ≤ (v : Int) ∧ (v : Int) ≤ 2 ^ 63 - 1) ∧ inInt64 v ∧
            (name ≠ "INT64_MAX" → (v : Int) ≤ 2 ^ 32 - 1 ∧ inUInt32 v)) ∧
      intValueOf "UINT32_MAX" = some (2 ^ 32 - 1) ∧
      intValueOf "INT64_MAX" = some (2 ^ 63 - 1) := by
  refine ⟨?_, by decide, by decide⟩
  have key : ∀ d ∈ definitions, ∀ v ∈ d.2.intValue,
      ((0 ≤ (v : Int) ∧ (v : Int) ≤ 9223372036854775807) ∧ inInt64 v ∧
        (d.1 ≠ "INT64_MAX" → (v : Int) ≤ 4294967295 ∧ inUInt32 v)) := by
    rw [definitions_eq]
    decide
  intro name lit v hd hv
  obtain ⟨hrange, h64, h32⟩ := key (name, lit) hd v hv
  have e63 : (2 : Int) ^ 63 - 1 = 9223372036854775807 := by norm_num
  have e32 : (2 : Int) ^ 32 - 1 = 4294967295 := by norm_num
  rw [e63, e32]
  exact ⟨hrange, h64, h32⟩

/-- C5 at `UINT32_MAX`, the largest of the 32-bit definitions. -/
theorem integer_definitions_in_range_witness :
    ("UINT32_MAX", Literal.hexInt 4294967295) ∈ definitions ∧
      (Literal.hexInt 4294967295).intValue = some 4294967295 ∧
      ((0 ≤ ((4294967295 : Nat) : Int) ∧ ((4294967295 : Nat) : Int) ≤ 2 ^ 63 - 1) ∧
        inInt64 (4294967295 : Nat) ∧
        ("UINT32_MAX" ≠ "INT64_MAX" →
          ((4294967295 : Nat) : Int) ≤ 2 ^ 32 - 1 ∧ inUInt32 (4294967295 : Nat))) :=
  ⟨by decide, rfl,
    integer_definitions_in_range.1 "UINT32_MAX" (.hexInt 4294967295) 4294967295
      (by decide) rfl⟩

/-- C6: `INT32_MAX_HEX` and `INT32_MAX_DEC` are the same integer `2 ^ 31 - 1`;
`INT32_MIN_HEX` is one more, `2 ^ 31`, the first value outside the signed
32-bit range, and reduced modulo `2 ^ 32` into two's complement it is
`-2 ^ 31`. -/
theorem int32_boundary_definitions :
    ∃ hi lo : Nat,
      lookupDef "INT32_MAX_HEX" = some (.hexInt hi) ∧
      lookupDef "INT32_MAX_DEC" = some (.decInt hi) ∧
      lookupDef "INT32_MIN_HEX" = some (.hexInt lo) ∧
      hi = 2 ^ 31 - 1 ∧ lo = hi + 1 ∧ lo = 2 ^ 31 ∧
      inInt32 hi ∧ ¬ inInt32 lo ∧
      (∀ v : Int, 0 ≤ v → v < lo → inInt32 v) ∧
      wrapInt32 lo = -2 ^ 31 := by
  refine ⟨2147483647, 2147483648, by decide, by decide, by decide, by decide, by decide,
    by decide, by decide, by decide, ?_, by decide⟩
  intro v h0 hv
  unfold inInt32
  constructor <;> omega

/-- C6 at the value 0. -/
theorem int32_boundary_definitions_witness :
    (0 : Int) ≤ 0 ∧ inInt32 0 ∧ wrapInt32 2147483648 = -2147483648 := by
  obtain ⟨hi, lo, _, _, hlo, _, _, hlo2, _, _, hall, _⟩ := int32_boundary_definitions
  exact ⟨le_refl 0, hall 0 (le_refl 0) (by subst hlo2; decide), by decide⟩

end MacroH
